import Mathlib

/-!
Verification of the streaming session core of the driver-drowsiness backend
(`backend2/backend/machineapi`).  The Python sources are shallowly embedded:

* `Json` together with `jsonLoads` models the subset of Python's `json.loads`
  the session exchanges (objects, arrays, strings with escapes, strict JSON
  numbers as exact rationals, booleans, null).  Deviations from CPython, none
  of which the claims touch: `NaN`/`Infinity` literals are rejected, a lone
  `\uXXXX` surrogate escape maps through `Char.ofNat`, and JSON floats and
  ints collapse into one exact rational representation.
* `OpenAIService` embeds `openai_service.py`: the fallback dictionaries, the
  parse cascade of `analyze_frame` (strict parse, then first-`{`-to-last-`}`
  substring parse, then fallback), and `preprocess_image` with the PIL
  `thumbnail` rounding computed in exact rational arithmetic.
* `GroqService` embeds the parse cascade of `groq_service.py` including its
  markdown-fence stripping and its different fallback dictionaries.
* `Consumer` embeds `consumers.py`: the per-connection state
  (`frame_count`, `analysis_interval`, service handle), `connect`,
  `receive` and `process_frame`, with the external inference call abstracted
  as an outcome (raw text returned, or an exception raised).  Python
  exception payloads whose exact `str(e)` text is a runtime detail
  (`AttributeError`, `TypeError`, `ZeroDivisionError`, `JSONDecodeError`)
  are modelled by fixed tag strings; websocket sends are modelled as pure
  outputs and are assumed not to raise.
-/

namespace Drowsy

/-- A decoded JSON value, as produced by `json.loads`: numbers are kept as
exact rationals, objects as the raw key/value list in source order. -/
inductive Json where
  | null
  | bool (b : Bool)
  | num (q : ℚ)
  | str (s : String)
  | arr (elems : List Json)
  | obj (fields : List (String × Json))

/-- Whitespace skipped between JSON tokens (space, tab, newline, carriage
return — exactly the characters `json.loads` skips). -/
def jSkip : List Char → List Char
  | [] => []
  | c :: cs => if c = ' ' || c = '\t' || c = '\n' || c = '\r' then jSkip cs else c :: cs

/-- Decimal digit test for the JSON number grammar. -/
def jIsDigit (c : Char) : Bool := '0' ≤ c && c ≤ '9'

/-- Splits a leading run of decimal digits off the input. -/
def jDigits : List Char → List Char × List Char
  | [] => ([], [])
  | c :: cs =>
    if jIsDigit c then
      let (ds, rest) := jDigits cs
      (c :: ds, rest)
    else ([], c :: cs)

/-- Numeric value of a digit run. -/
def digitsVal (ds : List Char) : ℕ := ds.foldl (fun a c => 10 * a + (c.toNat - 48)) 0

/-- Exponent suffix of a JSON number (`e`/`E`, optional sign, mandatory
digits); returns the exponent and the rest, or `none` on a malformed one. -/
def jExpPart : List Char → Option (ℤ × List Char)
  | 'e' :: r => jExpSigned r
  | 'E' :: r => jExpSigned r
  | cs => some (0, cs)
where
  jExpSigned : List Char → Option (ℤ × List Char)
    | '+' :: r =>
      match jDigits r with
      | ([], _) => none
      | (ds, rest) => some ((digitsVal ds : ℤ), rest)
    | '-' :: r =>
      match jDigits r with
      | ([], _) => none
      | (ds, rest) => some (-(digitsVal ds : ℤ), rest)
    | r =>
      match jDigits r with
      | ([], _) => none
      | (ds, rest) => some ((digitsVal ds : ℤ), rest)

/-- Fraction suffix of a JSON number: `.` followed by mandatory digits.
Returns numerator and number of digits. -/
def jFracPart : List Char → Option (ℕ × ℕ × List Char)
  | '.' :: r =>
    match jDigits r with
    | ([], _) => none
    | (ds, rest) => some (digitsVal ds, ds.length, rest)
  | cs => some (0, 0, cs)

/-- Strict JSON number grammar, as `json.loads` accepts it: optional minus,
an integer part without leading zeros, optional fraction, optional exponent.
The value is exact (`mantissa × 10^exponent` folded into one rational). -/
def jNumber (cs : List Char) : Option (ℚ × List Char) :=
  let (neg, cs1) := match cs with
    | '-' :: r => (true, r)
    | _ => (false, cs)
  match jDigits cs1 with
  | ([], _) => none
  | (ds, cs2) =>
    if 1 < ds.length ∧ ds.headD '0' = '0' then none
    else
      match jFracPart cs2 with
      | none => none
      | some (fnum, flen, cs3) =>
        match jExpPart cs3 with
        | none => none
        | some (e, cs4) =>
          let base : ℚ := (digitsVal ds : ℚ) + (fnum : ℚ) / (10 : ℚ) ^ flen
          let signed : ℚ := if neg then -base else base
          some (signed * (10 : ℚ) ^ e, cs4)

/-- Value of one hexadecimal digit. -/
def jHex (c : Char) : Option ℕ :=
  if '0' ≤ c && c ≤ '9' then some (c.toNat - 48)
  else if 'a' ≤ c && c ≤ 'f' then some (c.toNat - 87)
  else if 'A' ≤ c && c ≤ 'F' then some (c.toNat - 55)
  else none

/-- Single-character JSON escapes. -/
def jEsc : Char → Option Char
  | '"' => some '"'
  | '\\' => some '\\'
  | '/' => some '/'
  | 'b' => some (Char.ofNat 8)
  | 'f' => some (Char.ofNat 12)
  | 'n' => some '\n'
  | 'r' => some '\r'
  | 't' => some '\t'
  | _ => none

/-- Body of a JSON string after the opening quote.  Strict mode: raw control
characters are rejected, escapes are decoded, `\uXXXX` goes through
`Char.ofNat`. -/
def jStringBody (fuel : ℕ) (acc : List Char) (cs : List Char) : Option (String × List Char) :=
  match fuel with
  | 0 => none
  | fuel + 1 =>
    match cs with
    | [] => none
    | '"' :: r => some (⟨acc.reverse⟩, r)
    | '\\' :: r =>
      match r with
      | 'u' :: a :: b :: c :: d :: r2 =>
        match jHex a, jHex b, jHex c, jHex d with
        | some x1, some x2, some x3, some x4 =>
          jStringBody fuel (Char.ofNat (((x1 * 16 + x2) * 16 + x3) * 16 + x4) :: acc) r2
        | _, _, _, _ => none
      | e :: r2 =>
        match jEsc e with
        | some ch => jStringBody fuel (ch :: acc) r2
        | none => none
      | [] => none
    | c :: r => if c.toNat < 32 then none else jStringBody fuel (c :: acc) r

mutual

/-- One JSON value (fuelled recursion; the fuel passed by `jsonLoads` always
suffices because every nested call consumes input). -/
def jValue (fuel : ℕ) (cs : List Char) : Option (Json × List Char) :=
  match fuel with
  | 0 => none
  | fuel + 1 =>
    match jSkip cs with
    | 'n' :: 'u' :: 'l' :: 'l' :: r => some (.null, r)
    | 't' :: 'r' :: 'u' :: 'e' :: r => some (.bool true, r)
    | 'f' :: 'a' :: 'l' :: 's' :: 'e' :: r => some (.bool false, r)
    | '"' :: r =>
      match jStringBody (r.length + 1) [] r with
      | some (s, r2) => some (.str s, r2)
      | none => none
    | '[' :: r =>
      match jSkip r with
      | ']' :: r2 => some (.arr [], r2)
      | r2 =>
        match jItems fuel r2 with
        | some (es, r3) => some (.arr es, r3)
        | none => none
    | '{' :: r =>
      match jSkip r with
      | '}' :: r2 => some (.obj [], r2)
      | r2 =>
        match jPairs fuel r2 with
        | some (fs, r3) => some (.obj fs, r3)
        | none => none
    | c :: r =>
      if c = '-' || jIsDigit c then
        match jNumber (c :: r) with
        | some (q, r2) => some (.num q, r2)
        | none => none
      else none
    | [] => none

/-- Comma-separated array elements up to the closing bracket. -/
def jItems (fuel : ℕ) (cs : List Char) : Option (List Json × List Char) :=
  match fuel with
  | 0 => none
  | fuel + 1 =>
    match jValue fuel cs with
    | none => none
    | some (v, r) =>
      match jSkip r with
      | ',' :: r2 =>
        match jItems fuel r2 with
        | some (vs, r3) => some (v :: vs, r3)
        | none => none
      | ']' :: r2 => some ([v], r2)
      | _ => none

/-- Comma-separated object members up to the closing brace. -/
def jPairs (fuel : ℕ) (cs : List Char) : Option (List (String × Json) × List Char) :=
  match fuel with
  | 0 => none
  | fuel + 1 =>
    match jSkip cs with
    | '"' :: r =>
      match jStringBody (r.length + 1) [] r with
      | none => none
      | some (k, r1) =>
        match jSkip r1 with
        | ':' :: r2 =>
          match jValue fuel r2 with
          | none => none
          | some (v, r3) =>
            match jSkip r3 with
            | ',' :: r4 =>
              match jPairs fuel r4 with
              | some (fs, r5) => some ((k, v) :: fs, r5)
              | none => none
            | '}' :: r4 => some ([(k, v)], r4)
            | _ => none
        | _ => none
    | _ => none

end

/-- Model of Python's `json.loads`: parse one value, require the remainder to
be whitespace only; `none` models a raised `json.JSONDecodeError`. -/
def jsonLoads (s : String) : Option Json :=
  match jValue (2 * s.length + 8) s.data with
  | some (j, rest) => if jSkip rest = [] then some j else none
  | none => none

end Drowsy
namespace Drowsy

/-! ## Python string and arithmetic helpers -/

/-- Index of the first occurrence of `c`, as Python's `str.find` (with `none`
for Python's `-1`). -/
def pyFindIdx (cs : List Char) (c : Char) : Option ℕ :=
  match cs with
  | [] => none
  | d :: rest =>
    if d = c then some 0
    else
      match pyFindIdx rest c with
      | some i => some (i + 1)
      | none => none

/-- Index of the last occurrence of `c`, as Python's `str.rfind`. -/
def pyRFindIdx (cs : List Char) (c : Char) : Option ℕ :=
  match cs with
  | [] => none
  | d :: rest =>
    match pyRFindIdx rest c with
    | some i => some (i + 1)
    | none => if d = c then some 0 else none

/-- Python slice `s[a:b]` for non-negative bounds (empty when `b ≤ a`). -/
def pySlice (s : String) (a b : ℕ) : String := ⟨(s.data.drop a).take (b - a)⟩

/-- Characters removed by Python's `str.strip()`. -/
def pyIsSpace (c : Char) : Bool :=
  c = ' ' || c = '\t' || c = '\n' || c = '\r' || c = '\x0b' || c = '\x0c'

/-- Python's `str.strip()`: drop leading and trailing whitespace. -/
def pyStrip (s : String) : String :=
  ⟨((s.data.dropWhile pyIsSpace).reverse.dropWhile pyIsSpace).reverse⟩

/-- Python's `content[start:end]` step of the parse cascade: the substring
from the first `\x7b` to the last `\x7d` inclusive, available only when the
code's `start != -1 and end != 0` guard passes. -/
def braceSpan (s : String) : Option String :=
  match pyFindIdx s.data '{', pyRFindIdx s.data '}' with
  | some i, some j => some (pySlice s i (j + 1))
  | _, _ => none

/-- Python's `%` on numbers (sign follows the divisor): `a - b * floor(a/b)`.
Callers guard the divisor against zero as CPython raises there. -/
def pyRatMod (a b : ℚ) : ℚ := a - b * (⌊a / b⌋ : ℤ)

/-- Python's truthiness followed by the `.get`-compatible lookup used by the
consumer: last occurrence wins, as for duplicate keys in `json.loads`. -/
def dictGet (fields : List (String × Json)) (k : String) : Option Json :=
  match fields with
  | [] => none
  | (k1, v) :: rest =>
    match dictGet rest k with
    | some r => some r
    | none => if k1 = k then some v else none

/-- Python's `x == "lit"` for a decoded JSON value: true only for the equal
string (equality against any other runtime type is `False`). -/
def Json.isStrVal : Json → String → Bool
  | .str t, s => t = s
  | _, _ => false

/-- Outcome of the external inference round trip inside `analyze_frame`'s
`try` body: the remote call returned raw text, or some step of the body
(image decode, transport, auth, throttling) raised with message `e`. -/
inductive InferOutcome where
  | returns (content : String)
  | raises (e : String)

/-! ## openai_service.py -/

namespace OpenAIService

/-- Fallback dictionary of `analyze_frame` when no brace span exists in the
unparseable model output (lines 126–131 of `openai_service.py`). -/
def parse_fallback : Json :=
  .obj [("drowsiness_level", .str "unknown"), ("confidence", .num 0),
        ("observations", .arr [.str "Failed to parse analysis"]),
        ("recommended_action", .str "Manual review required")]

/-- Stands for `str(e)` of the `json.JSONDecodeError` that escapes the inner
parse cascade (its exact text is a CPython runtime detail). -/
def json_decode_err : String := "JSONDecodeError"

/-- Dictionary returned by `analyze_frame`'s outer `except Exception` handler
(lines 135–142 of `openai_service.py`). -/
def error_fallback (e : String) : Json :=
  .obj [("error", .str e), ("drowsiness_level", .str "unknown"), ("confidence", .num 0),
        ("observations", .arr [.str ("Analysis failed: " ++ e)]),
        ("recommended_action", .str "Check API connection and try again")]

/-- Parse cascade over the raw model output (lines 117–131): strict
`json.loads`, then `json.loads` of the first-`\x7b`-to-last-`\x7d` substring,
then the fixed fallback; `.error` is the `JSONDecodeError` that escapes when
the substring re-parse also fails. -/
def parse_content (content : String) : Except String Json :=
  match jsonLoads content with
  | some j => .ok j
  | none =>
    match braceSpan content with
    | some sub =>
      match jsonLoads sub with
      | some j => .ok j
      | none => .error json_decode_err
    | none => .ok parse_fallback

/-- Whole-body behaviour of `analyze_frame` given the round-trip outcome:
never raises to its caller; every escaping exception becomes the
`error_fallback` dictionary. -/
def analyze_frame : InferOutcome → Json
  | .raises e => error_fallback e
  | .returns content =>
    match parse_content content with
    | .ok j => j
    | .error e => error_fallback e

/-- Geometry and colour mode of a PIL image. -/
structure Img where
  width : ℕ
  height : ℕ
  mode : String

/-- Rounding of PIL `Image.thumbnail`'s first branch: nearest integer to
`num/den` with ties to the floor (the `min` over `(floor, ceil)` with the
distance key), then clamped to at least 1. -/
def thumbRoundFst (num den : ℕ) : ℕ :=
  max (if 2 * (num % den) ≤ den then num / den else num / den + 1) 1

/-- Rounding of PIL `Image.thumbnail`'s second branch, whose key compares
`|aspect - x/n|` (cross-multiplied here to stay in ℕ): picks floor exactly
when `r*(f+1) ≤ (den-r)*f`, then clamps to at least 1 — including the
`n == 0` special case, whose final value is also 1. -/
def thumbRoundSnd (num den : ℕ) : ℕ :=
  max (if num % den * (num / den + 1) ≤ (den - num % den) * (num / den)
       then num / den else num / den + 1) 1

/-- PIL `Image.thumbnail` for a bounding box `maxW × maxH`: early return when
the image already fits, otherwise shrink the larger-relative dimension and
round per branch (the float `aspect` comparison `x/y >= w/h` is modelled by
the exact cross-multiplication `maxW*h ≥ w*maxH`). -/
def thumbnail (img : Img) (maxW maxH : ℕ) : Img :=
  if img.width ≤ maxW ∧ img.height ≤ maxH then img
  else if img.width * maxH ≤ maxW * img.height then
    { img with width := thumbRoundFst (maxH * img.width) img.height, height := maxH }
  else
    { img with width := maxW, height := thumbRoundSnd (maxW * img.height) img.width }

/-- Embeds `preprocess_image` (lines 61–71): downscale via `thumbnail` when a
dimension exceeds 1024, then convert any non-RGB mode to RGB. -/
def preprocess_image (img : Img) : Img :=
  let img1 := if 1024 < img.width ∨ 1024 < img.height then thumbnail img 1024 1024 else img
  if img1.mode ≠ "RGB" then { img1 with mode := "RGB" } else img1

end OpenAIService

/-! ## groq_service.py -/

namespace GroqService

/-- Markdown-fence stripping of `groq_service.py` lines 107–113: strip
whitespace, then cut `7:-3` after a ` ```json ` fence or `3:-3` after a
bare ` ``` ` fence. -/
def fence_strip (raw : String) : String :=
  let content := pyStrip raw
  if ("```json".data).isPrefixOf content.data then pySlice content 7 (content.length - 3)
  else if ("```".data).isPrefixOf content.data then pySlice content 3 (content.length - 3)
  else content

/-- Fallback dictionary of `analyze_frame` when no brace span exists
(lines 125–130 of `groq_service.py`): note the optimistic `awake`/`0.8`. -/
def parse_fallback : Json :=
  .obj [("drowsiness_level", .str "awake"), ("confidence", .num ((8 : ℚ) / 10)),
        ("observations", .arr [.str "Frame captured successfully"]),
        ("recommended_action", .str "Continue monitoring")]

/-- Dictionary returned by the outer `except Exception` handler
(lines 134–141 of `groq_service.py`). -/
def error_fallback (e : String) : Json :=
  .obj [("error", .str e), ("drowsiness_level", .str "unknown"), ("confidence", .num 0),
        ("observations", .arr [.str "Failed to analyze frame"]),
        ("recommended_action", .str "Check system connection")]

/-- Parse cascade of `analyze_frame` (lines 107–130): fence-strip, strict
parse, brace-span re-parse, fallback; `.error` is the escaping
`JSONDecodeError`. -/
def parse_content (raw : String) : Except String Json :=
  let content := fence_strip raw
  match jsonLoads content with
  | some j => .ok j
  | none =>
    match braceSpan content with
    | some sub =>
      match jsonLoads sub with
      | some j => .ok j
      | none => .error OpenAIService.json_decode_err
    | none => .ok parse_fallback

/-- Whole-body behaviour of groq's `analyze_frame` given the round-trip
outcome. -/
def analyze_frame : InferOutcome → Json
  | .raises e => error_fallback e
  | .returns content =>
    match parse_content content with
    | .ok j => j
    | .error e => error_fallback e

end GroqService

/-! ## consumers.py -/

namespace Consumer

/-- Text frames the consumer sends back over the websocket; one constructor
per `"type"` the code emits, with the code's literal payload fields.
`errorMsg` is the generic `\x7b"type": "error"\x7d` message. -/
inductive ServerMsg where
  | connectionEstablished (message status : String)
  | connectionError (message status : String)
  | configurationAcknowledged (interval : Json)
  | frameReceived (frame_number : ℕ) (analyzed : Bool)
  | processing (frame_number : ℕ) (message : String)
  | analysisResult (frame_number : ℕ) (data : Json)
  | analysisError (frame_number : ℕ) (error : String)
  | errorMsg (message : String)

/-- Per-connection state of `VideoAnalysisConsumer`: the `__init__` fields,
plus `closed` recording a call to `self.close()`.  `analysis_interval` is a
decoded JSON value because `receive` assigns `data.get("interval", 1)` to it
unvalidated. -/
structure ConsumerState where
  serviceOk : Bool
  closed : Bool
  frame_count : ℕ
  analysis_interval : Json
  last_analysis_result : Option Json

/-- State set up by `__init__`: no service yet, counter 0, interval 1. -/
def initState : ConsumerState :=
  { serviceOk := false, closed := false, frame_count := 0
    analysis_interval := .num 1, last_analysis_result := none }

/-- Embeds `connect` (lines 28–49): acquiring the service singleton either
succeeds, or raises with message `e` (for example on a missing API key), in
which case the consumer reports `connection_error` and closes — the
exception never escapes `connect`. -/
def connect (acq : Except String Unit) : ConsumerState × List ServerMsg :=
  match acq with
  | .ok _ =>
    ({ initState with serviceOk := true },
     [.connectionEstablished "Connected to video analysis service" "ready"])
  | .error e =>
    ({ initState with serviceOk := false, closed := true },
     [.connectionError ("Failed to initialize analysis service: " ++ e) "error"])

/-- Left operand admissibility of Python's `frame_count % analysis_interval`:
numbers are used as they are, booleans coerce to 1/0, anything else raises
`TypeError` (`none`). -/
def modDivisor : Json → Option ℚ
  | .num q => some q
  | .bool b => some (if b then 1 else 0)
  | _ => none

/-- Python's `data.get("type") == "configure"` over the decoded object. -/
def isConfigureMsg (fields : List (String × Json)) : Bool :=
  match dictGet fields "type" with
  | some v => v.isStrVal "configure"
  | none => false

/-- Embeds `process_frame` (lines 98–130): emit `processing`, then either the
analysis result from the service or the not-initialized error.  The modelled
`analyze_frame` is total, so the `except` arm emitting `analysis_error` is
reachable only through a failing websocket send, which this embedding does
not model. -/
def process_frame (st : ConsumerState) (o : InferOutcome) : ConsumerState × List ServerMsg :=
  if st.serviceOk then
    let result := OpenAIService.analyze_frame o
    ({ st with last_analysis_result := some result },
     [.processing st.frame_count "Analyzing frame...",
      .analysisResult st.frame_count result])
  else
    (st, [.processing st.frame_count "Analyzing frame...",
          .errorMsg "Analysis service not initialized"])

/-- One websocket delivery: a text payload or a binary frame.  The binary
frame's bytes only reach the model through the inference outcome, so the
frame is carried as that outcome. -/
inductive Incoming where
  | text (s : String)
  | binary (o : InferOutcome)

/-- Embeds `receive` (lines 56–96).  Text: empty strings are falsy and fall
through; undecodable JSON answers `error "Invalid JSON format"`; a decoded
non-object raises `AttributeError` at `data.get`, caught as a generic error;
a `configure` object stores `data.get("interval", 1)` unvalidated and
acknowledges it; any other object falls through silently.  Binary: the
counter is incremented first, then the sampling test dispatches to
`process_frame` or acknowledges a skipped frame; a non-numeric or zero
interval makes `%` raise, caught as a generic error. -/
def receive (st : ConsumerState) : Incoming → ConsumerState × List ServerMsg
  | .text s =>
    if s = "" then (st, [])
    else
      match jsonLoads s with
      | none => (st, [.errorMsg "Invalid JSON format"])
      | some (.obj fields) =>
        if isConfigureMsg fields then
          let v := (dictGet fields "interval").getD (.num 1)
          ({ st with analysis_interval := v }, [.configurationAcknowledged v])
        else (st, [])
      | some _ => (st, [.errorMsg "AttributeError"])
  | .binary o =>
    let st1 := { st with frame_count := st.frame_count + 1 }
    match modDivisor st1.analysis_interval with
    | none => (st1, [.errorMsg "TypeError"])
    | some q =>
      if q = 0 then (st1, [.errorMsg "ZeroDivisionError"])
      else if pyRatMod (st1.frame_count : ℚ) q = 0 then process_frame st1 o
      else (st1, [.frameReceived st1.frame_count false])

/-- A whole session's worth of deliveries, with the emitted messages
concatenated in order. -/
def run (st : ConsumerState) : List Incoming → ConsumerState × List ServerMsg
  | [] => (st, [])
  | m :: ms =>
    let s1 := receive st m
    let s2 := run s1.1 ms
    (s2.1, s1.2 ++ s2.2)

/-- Recognizes the `processing` status message. -/
def isProcessingMsg : ServerMsg → Bool
  | .processing _ _ => true
  | _ => false

/-- Recognizes the skipped-frame acknowledgment. -/
def isFrameReceivedMsg : ServerMsg → Bool
  | .frameReceived _ _ => true
  | _ => false

/-- Recognizes the `analysis_error` message. -/
def isAnalysisErrMsg : ServerMsg → Bool
  | .analysisError _ _ => true
  | _ => false

/-- Recognizes binary deliveries. -/
def isBinaryIncoming : Incoming → Bool
  | .binary _ => true
  | _ => false

/-- Frames submitted for inference, observed as `processing` emissions (each
`process_frame` call emits exactly one). -/
def countProcessing (out : List ServerMsg) : ℕ := (out.filter isProcessingMsg).length

/-- Skipped-frame acknowledgments in an output. -/
def countFrameReceived (out : List ServerMsg) : ℕ := (out.filter isFrameReceivedMsg).length

/-- A freshly connected session whose sampling interval was set to the
integer `N` (the state in which the sampling claims are phrased). -/
def sampleState (N : ℕ) : ConsumerState :=
  { initState with serviceOk := true, analysis_interval := .num (N : ℚ) }

end Consumer

/-- Lookup of a field of a decoded JSON object (`none` on other values). -/
def jget : Json → String → Option Json
  | .obj fs, k => dictGet fs k
  | _, _ => none

/-- Modelled from the spec: the `observations` value of the fallback result
the spec prescribes for unparseable output (§4.2). -/
def specC4Observations : Json := .arr [.str "parse failure"]

/-- Modelled from the spec: the `recommendedAction` of the spec's prescribed
fallback result (§4.2). -/
def specC4Action : String := "manual review required"

end Drowsy

namespace Drowsy

/-- Messages one binary frame with post-increment counter `i` produces in a
session sampling every `N` frames: the `processing`/`analysis_result` pair
when `N` divides `i`, the skipped-frame acknowledgment otherwise. -/
def binChunk (N i : ℕ) (o : InferOutcome) : List Consumer.ServerMsg :=
  if i % N = 0 then
    [.processing i "Analyzing frame...",
     .analysisResult i (OpenAIService.analyze_frame o)]
  else [.frameReceived i false]

/-- Messages a run of binary frames produces, starting from counter `c`. -/
def binTrace (N c : ℕ) : List InferOutcome → List Consumer.ServerMsg
  | [] => []
  | o :: os => binChunk N (c + 1) o ++ binTrace N (c + 1) os


/-! ## Helper lemmas -/

/-- Python's `%` on a natural dividend and a positive natural divisor agrees
with `Nat.mod`. -/
theorem pyRatMod_natCast (a b : ℕ) (hb : b ≠ 0) :
    pyRatMod (a : ℚ) (b : ℚ) = ((a % b : ℕ) : ℚ) := by
  have hb0 : (0 : ℚ) < b := by exact_mod_cast Nat.pos_of_ne_zero hb
  have hfl : ⌊(a : ℚ) / (b : ℚ)⌋ = (a / b : ℕ) := by
    rw [Int.floor_eq_iff]
    constructor
    · rw [Int.cast_natCast, le_div_iff₀ hb0]
      exact_mod_cast Nat.div_mul_le_self a b
    · rw [Int.cast_natCast, div_lt_iff₀ hb0]
      have h1 : a < (a / b + 1) * b := by
        have h2 := Nat.div_add_mod' a b
        have h3 := Nat.mod_lt a (Nat.pos_of_ne_zero hb)
        calc a = a / b * b + a % b := h2.symm
        _ < a / b * b + b := by omega
        _ = (a / b + 1) * b := by ring
      exact_mod_cast h1
  unfold pyRatMod
  rw [hfl, Int.cast_natCast]
  have h2 : (b : ℚ) * ((a / b : ℕ) : ℚ) + ((a % b : ℕ) : ℚ) = (a : ℚ) := by
    exact_mod_cast Nat.div_add_mod a b
  linarith

/-- Behaviour of `receive` on a binary frame in a session whose interval is
the positive integer `N`: the counter is incremented, then the frame is
analyzed or acknowledged according to the sampling test. -/
theorem receive_binary_num (st : Consumer.ConsumerState) (N : ℕ) (o : InferOutcome)
    (hs : st.serviceOk = true) (hI : st.analysis_interval = .num (N : ℚ)) (hN : N ≠ 0) :
    Consumer.receive st (.binary o) =
      if (st.frame_count + 1) % N = 0 then
        ({ st with frame_count := st.frame_count + 1
                   last_analysis_result := some (OpenAIService.analyze_frame o) },
         [.processing (st.frame_count + 1) "Analyzing frame...",
          .analysisResult (st.frame_count + 1) (OpenAIService.analyze_frame o)])
      else
        ({ st with frame_count := st.frame_count + 1 },
         [.frameReceived (st.frame_count + 1) false]) := by
  have hq : (N : ℚ) ≠ 0 := by exact_mod_cast hN
  have hmod := pyRatMod_natCast (st.frame_count + 1) N hN
  simp only [Consumer.receive, Consumer.modDivisor, hI]
  rw [if_neg hq, hmod]
  by_cases hc : (st.frame_count + 1) % N = 0
  · rw [if_pos (show (((st.frame_count + 1) % N : ℕ) : ℚ) = 0 by exact_mod_cast hc), if_pos hc]
    simp [Consumer.process_frame, hs]
  · rw [if_neg (show ¬ (((st.frame_count + 1) % N : ℕ) : ℚ) = 0 by exact_mod_cast hc),
      if_neg hc]

end Drowsy


namespace Drowsy

/-- Text deliveries never change the frame counter, whichever branch of
`receive` they take. -/
theorem receive_text_frame_count (st : Consumer.ConsumerState) (s : String) :
    (Consumer.receive st (.text s)).1.frame_count = st.frame_count := by
  by_cases hemp : s = ""
  · simp [Consumer.receive, hemp]
  · cases hj : jsonLoads s with
    | none => simp [Consumer.receive, hemp, hj]
    | some j =>
      cases j with
      | obj fields =>
        by_cases hcfg : Consumer.isConfigureMsg fields
        · simp [Consumer.receive, hemp, hj, hcfg]
        · simp [Consumer.receive, hemp, hj, hcfg]
      | null => simp [Consumer.receive, hemp, hj]
      | bool b => simp [Consumer.receive, hemp, hj]
      | num q => simp [Consumer.receive, hemp, hj]
      | str t => simp [Consumer.receive, hemp, hj]
      | arr es => simp [Consumer.receive, hemp, hj]

/-- Binary deliveries increment the frame counter by exactly one, in every
branch of `receive` (analyzed, skipped, and the `%`-raises branches). -/
theorem receive_binary_frame_count (st : Consumer.ConsumerState) (o : InferOutcome) :
    (Consumer.receive st (.binary o)).1.frame_count = st.frame_count + 1 := by
  simp only [Consumer.receive]
  cases hm : Consumer.modDivisor st.analysis_interval with
  | none => rfl
  | some q =>
    by_cases hq : q = 0
    · simp [hq]
    · by_cases hmod : pyRatMod ((st.frame_count + 1 : ℕ) : ℚ) q = 0
      · simp only [hq, hmod, if_true, if_false, Consumer.process_frame]
        split <;> rfl
      · dsimp only
        rw [if_neg hq, if_neg hmod]

end Drowsy

namespace Drowsy

/-- C9 counterexample: the empty text message is not valid JSON
(`json.loads("")` raises `JSONDecodeError`), yet the session emits no error
acknowledgment for it — `if text_data:` is falsy on `""`, so the message is
skipped before any decode is attempted, contradicting the claim that a
JSON-decode failure always draws an `error` acknowledgment. -/
theorem empty_text_silent_counterexample :
    jsonLoads "" = none
  ∧ Consumer.receive Consumer.initState (.text "") = (Consumer.initState, []) :=
  ⟨rfl, rfl⟩

/-- C9 as amended: a NON-EMPTY text message that is not valid JSON makes the
session emit the `error "Invalid JSON format"` acknowledgment and is
otherwise ignored — the returned state (frame counter, sampling interval,
everything) is exactly the state before the message; the empty text message,
although it is also not valid JSON, is falsy and skipped before the decode,
so it is ignored silently, with the state likewise unchanged. -/
theorem malformed_text_error_state_unchanged :
    (∀ (st : Consumer.ConsumerState) (s : String), s ≠ "" → jsonLoads s = none →
       Consumer.receive st (.text s) = (st, [.errorMsg "Invalid JSON format"]))
  ∧ (∀ st : Consumer.ConsumerState, Consumer.receive st (.text "") = (st, [])) := by
  constructor
  · intro st s hne hbad
    simp [Consumer.receive, hne, hbad]
  · intro st
    rfl

/-- Witness for C9's amended theorem at the concrete undecodable payload
`"\x7b"`. -/
theorem malformed_text_error_state_unchanged_witness :
    ("\x7b" : String) ≠ "" ∧ jsonLoads "\x7b" = none ∧
      Consumer.receive Consumer.initState (.text "\x7b") =
        (Consumer.initState, [.errorMsg "Invalid JSON format"]) :=
  ⟨by decide, rfl,
   malformed_text_error_state_unchanged.1 Consumer.initState "\x7b" (by decide) rfl⟩

/-- C10: every binary frame increments the frame counter by exactly one —
whether it is analyzed, skipped by sampling, or its processing errors — and
over any delivery sequence the counter equals its starting value plus the
number of binary frames received, so it is never decremented or reset and is
strictly monotone across binary frames. -/
theorem frame_counter_monotone :
    (∀ (st : Consumer.ConsumerState) (o : InferOutcome),
       (Consumer.receive st (.binary o)).1.frame_count = st.frame_count + 1)
  ∧ (∀ (st : Consumer.ConsumerState) (ms : List Consumer.Incoming),
       (Consumer.run st ms).1.frame_count =
         st.frame_count + (ms.filter Consumer.isBinaryIncoming).length) := by
  refine ⟨receive_binary_frame_count, ?_⟩
  intro st ms
  induction ms generalizing st with
  | nil => simp [Consumer.run]
  | cons m ms ih =>
    cases m with
    | text s =>
      simp [Consumer.run, Consumer.isBinaryIncoming, ih, receive_text_frame_count]
    | binary o =>
      simp [Consumer.run, Consumer.isBinaryIncoming, ih, receive_binary_frame_count]
      omega

/-- C7: on connection, successful acquisition of the inference client emits
the `connection_established`/`"ready"` acknowledgment and leaves the session
open and able to process frames (the third conjunct analyzes a first frame);
failed acquisition emits `connection_error` carrying the reason and closes —
the exception is consumed inside `connect`, so the failure is fatal only for
this session, never for the process. -/
theorem connect_outcomes :
    Consumer.connect (.ok ()) =
      ({ Consumer.initState with serviceOk := true },
       [.connectionEstablished "Connected to video analysis service" "ready"])
  ∧ (∀ e, Consumer.connect (.error e) =
       ({ Consumer.initState with serviceOk := false, closed := true },
        [.connectionError ("Failed to initialize analysis service: " ++ e) "error"]))
  ∧ ((Consumer.connect (.ok ())).1.closed = false)
  ∧ (∀ o, (Consumer.receive (Consumer.connect (.ok ())).1 (.binary o)).2 =
       [.processing 1 "Analyzing frame...",
        .analysisResult 1 (OpenAIService.analyze_frame o)]) := by
  refine ⟨rfl, fun e => rfl, rfl, fun o => ?_⟩
  have hI : (Consumer.connect (.ok ())).1.analysis_interval = .num ((1 : ℕ) : ℚ) := by
    norm_num [Consumer.connect, Consumer.initState]
  have h := receive_binary_num (Consumer.connect (.ok ())).1 1 o rfl hI one_ne_zero
  rw [h]
  simp [Nat.mod_one, Consumer.connect, Consumer.initState]

end Drowsy

namespace Drowsy

/-- C3 counterexample: `configure` with `interval: 0` is NOT rejected — the
session acknowledges it with `configuration_acknowledged` and the sampling
interval changes from 1 to 0 (second conjunct), contradicting the claimed
validation error, unchanged interval, and absence of an acknowledgment. -/
theorem configure_zero_accepted_counterexample :
    Consumer.receive (Consumer.sampleState 1)
        (.text "\x7b\"type\": \"configure\", \"interval\": 0\x7d") =
      ({ Consumer.sampleState 1 with analysis_interval := .num 0 },
       [.configurationAcknowledged (.num 0)])
  ∧ Json.num 0 ≠ (Consumer.sampleState 1).analysis_interval := by
  constructor
  · with_unfolding_all rfl
  · intro h
    have h1 : (0 : ℚ) = ((1 : ℕ) : ℚ) := Json.num.inj h
    norm_num at h1

/-- C3 as amended: the code performs no interval validation at all — any
decoded `configure` object (whatever its `interval` value: 0, negative,
missing, or a non-number) updates `analysis_interval` to
`data.get("interval", 1)` and emits `configuration_acknowledged` carrying
that value. -/
theorem configure_accepts_any_interval (st : Consumer.ConsumerState) (s : String)
    (fields : List (String × Json)) (hs : jsonLoads s = some (.obj fields))
    (hty : Consumer.isConfigureMsg fields = true) :
    Consumer.receive st (.text s) =
      ({ st with analysis_interval := (dictGet fields "interval").getD (.num 1) },
       [.configurationAcknowledged ((dictGet fields "interval").getD (.num 1))]) := by
  have hne : s ≠ "" := by
    intro h
    rw [h] at hs
    exact Option.noConfusion ((rfl : jsonLoads "" = none).symm.trans hs)
  simp [Consumer.receive, hne, hs, hty]

/-- Witness for C3's amended theorem at `configure` with `interval: -1`: the
negative interval is stored and acknowledged. -/
theorem configure_accepts_any_interval_witness :
    jsonLoads "\x7b\"type\": \"configure\", \"interval\": -1\x7d" =
      some (.obj [("type", .str "configure"), ("interval", .num (-1))])
  ∧ Consumer.isConfigureMsg [("type", .str "configure"), ("interval", .num (-1))] = true
  ∧ Consumer.receive Consumer.initState
        (.text "\x7b\"type\": \"configure\", \"interval\": -1\x7d") =
      ({ Consumer.initState with analysis_interval := .num (-1) },
       [.configurationAcknowledged (.num (-1))]) := by
  have h1 : jsonLoads "\x7b\"type\": \"configure\", \"interval\": -1\x7d" =
      some (.obj [("type", .str "configure"), ("interval", .num (-1))]) := by
    with_unfolding_all rfl
  refine ⟨h1, rfl, ?_⟩
  exact configure_accepts_any_interval Consumer.initState _ _ h1 rfl

end Drowsy

namespace Drowsy

/-- C4 counterexample: on the empty raw output the parser does return a
fallback without raising, but its payload differs from the claimed one — the
observations say `"Failed to parse analysis"` (not `"parse failure"`) and
the action is `"Manual review required"` (not `"manual review required"`). -/
theorem fallback_strings_counterexample :
    OpenAIService.analyze_frame (.returns "") = OpenAIService.parse_fallback
  ∧ jget (OpenAIService.analyze_frame (.returns "")) "observations" =
      some (.arr [.str "Failed to parse analysis"])
  ∧ jget (OpenAIService.analyze_frame (.returns "")) "recommended_action" =
      some (.str "Manual review required")
  ∧ Json.arr [.str "Failed to parse analysis"] ≠ specC4Observations
  ∧ "Manual review required" ≠ specC4Action := by
  refine ⟨rfl, rfl, rfl, ?_, by decide⟩
  intro h
  have h1 := Json.arr.inj h
  have h2 := List.head_eq_of_cons_eq h1
  have h3 := Json.str.inj h2
  exact absurd h3 (by decide)

/-- C4 as amended: for raw output that fails the strict parse, the openai
parse stage returns the deterministic fallback with `drowsiness_level =
"unknown"`, `confidence = 0.0`, `observations = ["Failed to parse
analysis"]`, `recommended_action = "Manual review required"` when the text
has no usable brace span; when a brace span exists but its re-parse also
fails, the escaping `JSONDecodeError` is absorbed by `analyze_frame`'s outer
handler, which returns the analysis-failed dictionary instead — in neither
case does an exception reach the caller.  The groq service behaves the same
way structurally but with its own dictionaries (optimistic
`awake`/`0.8`/`"Frame captured successfully"` when no brace span exists). -/
theorem unparseable_output_fallback :
    (∀ s, jsonLoads s = none →
       (braceSpan s = none →
          OpenAIService.analyze_frame (.returns s) = OpenAIService.parse_fallback)
       ∧ (∀ sub, braceSpan s = some sub → jsonLoads sub = none →
            OpenAIService.analyze_frame (.returns s) =
              OpenAIService.error_fallback OpenAIService.json_decode_err))
  ∧ (∀ s, jsonLoads (GroqService.fence_strip s) = none →
       (braceSpan (GroqService.fence_strip s) = none →
          GroqService.analyze_frame (.returns s) = GroqService.parse_fallback)
       ∧ (∀ sub, braceSpan (GroqService.fence_strip s) = some sub → jsonLoads sub = none →
            GroqService.analyze_frame (.returns s) =
              GroqService.error_fallback OpenAIService.json_decode_err)) := by
  constructor
  · intro s hs
    constructor
    · intro hb
      simp [OpenAIService.analyze_frame, OpenAIService.parse_content, hs, hb]
    · intro sub hb hsub
      simp [OpenAIService.analyze_frame, OpenAIService.parse_content, hs, hb, hsub]
  · intro s hs
    constructor
    · intro hb
      simp [GroqService.analyze_frame, GroqService.parse_content, hs, hb]
    · intro sub hb hsub
      simp [GroqService.analyze_frame, GroqService.parse_content, hs, hb, hsub]

/-- Witness for C4's amended theorem at prose with no braces (openai) and at
a fenced unparseable payload (groq). -/
theorem unparseable_output_fallback_witness :
    jsonLoads "model refused" = none ∧ braceSpan "model refused" = none
  ∧ OpenAIService.analyze_frame (.returns "model refused") = OpenAIService.parse_fallback
  ∧ jsonLoads (GroqService.fence_strip "```json\nnope\n```") = none
  ∧ braceSpan (GroqService.fence_strip "```json\nnope\n```") = none
  ∧ GroqService.analyze_frame (.returns "```json\nnope\n```") = GroqService.parse_fallback :=
  ⟨rfl, rfl, (unparseable_output_fallback.1 "model refused" rfl).1 rfl,
   rfl, rfl, (unparseable_output_fallback.2 "```json\nnope\n```" rfl).1 rfl⟩

end Drowsy

namespace Drowsy

/-- C6 counterexample: when the inference capability raises (here a
transport failure `"Connection error"`), the client does NOT receive an
`analysis_error` message — `analyze_frame` absorbs the exception and the
consumer forwards the error dictionary inside a regular `analysis_result`
(the second conjunct checks no `analysis_error` occurs in the output). -/
theorem infer_error_analysis_result_counterexample :
    (Consumer.receive (Consumer.sampleState 1) (.binary (.raises "Connection error"))).2 =
      [.processing 1 "Analyzing frame...",
       .analysisResult 1 (OpenAIService.error_fallback "Connection error")]
  ∧ ((Consumer.receive (Consumer.sampleState 1)
        (.binary (.raises "Connection error"))).2.all
          fun m => !Consumer.isAnalysisErrMsg m) = true := by
  constructor
  · with_unfolding_all rfl
  · with_unfolding_all rfl

/-- C6 as amended: an inference-capability failure (transport,
authentication, throttling, or image decode) while an analyzed frame is
processed is absorbed inside `analyze_frame` and reported to the client as
an `analysis_result` message whose payload is the error dictionary
(`drowsiness_level = "unknown"`, `confidence = 0.0`, the error text in
`observations`); no `analysis_error` is emitted for it, the session stays
open, and it continues to answer subsequent frames — a single bad frame
never terminates the session.  (`analysis_error` itself is reachable only
through a failing websocket send inside `process_frame`, which this
embedding does not model.) -/
theorem infer_error_recovered_as_result (st : Consumer.ConsumerState) (e : String)
    (hs : st.serviceOk = true) (hI : st.analysis_interval = .num ((1 : ℕ) : ℚ)) :
    Consumer.receive st (.binary (.raises e)) =
      ({ st with frame_count := st.frame_count + 1
                 last_analysis_result := some (OpenAIService.error_fallback e) },
       [.processing (st.frame_count + 1) "Analyzing frame...",
        .analysisResult (st.frame_count + 1) (OpenAIService.error_fallback e)])
  ∧ (Consumer.receive st (.binary (.raises e))).1.closed = st.closed
  ∧ (∀ o, (Consumer.receive (Consumer.receive st (.binary (.raises e))).1 (.binary o)).2 ≠ []) := by
  have h := receive_binary_num st 1 (.raises e) hs hI one_ne_zero
  rw [Nat.mod_one, if_pos rfl] at h
  refine ⟨h, by rw [h], ?_⟩
  intro o
  have h2 := receive_binary_num (Consumer.receive st (.binary (.raises e))).1 1 o
    (by rw [h]; exact hs) (by rw [h]; exact hI) one_ne_zero
  rw [Nat.mod_one, if_pos rfl] at h2
  rw [h2]
  simp

/-- Witness for C6's amended theorem at an authentication failure on a fresh
ready session. -/
theorem infer_error_recovered_as_result_witness :
    (Consumer.sampleState 1).serviceOk = true
  ∧ (Consumer.sampleState 1).analysis_interval = .num ((1 : ℕ) : ℚ)
  ∧ Consumer.receive (Consumer.sampleState 1) (.binary (.raises "AuthError")) =
      ({ Consumer.sampleState 1 with
          frame_count := 1
          last_analysis_result := some (OpenAIService.error_fallback "AuthError") },
       [.processing 1 "Analyzing frame...",
        .analysisResult 1 (OpenAIService.error_fallback "AuthError")]) :=
  ⟨rfl, rfl, (infer_error_recovered_as_result (Consumer.sampleState 1) "AuthError" rfl rfl).1⟩

end Drowsy

namespace Drowsy

/-- PIL `thumbnail` with box 1024×1024 never produces a dimension above
1024 (for genuine images, both dimensions at least 1). -/
theorem thumbnail_le (img : OpenAIService.Img) (hw : 1 ≤ img.width) (hh : 1 ≤ img.height) :
    (OpenAIService.thumbnail img 1024 1024).width ≤ 1024 ∧
    (OpenAIService.thumbnail img 1024 1024).height ≤ 1024 := by
  unfold OpenAIService.thumbnail
  split
  case isTrue hfit => exact hfit
  case isFalse hfit =>
    split
    case isTrue hbr =>
      have hwh : img.width ≤ img.height := by
        have := hbr
        nlinarith
      have hh1024 : 1024 < img.height := by
        rcases Nat.lt_or_ge 1024 img.width with h1 | h1
        · omega
        · rcases Nat.lt_or_ge 1024 img.height with h2 | h2
          · exact h2
          · exact absurd ⟨h1, h2⟩ hfit
      have hhpos : 0 < img.height := by omega
      refine ⟨?_, le_refl 1024⟩
      have hf : 1024 * img.width / img.height ≤ 1024 := by
        calc 1024 * img.width / img.height
            ≤ 1024 * img.height / img.height := by
              exact Nat.div_le_div_right (by nlinarith)
          _ = 1024 := Nat.mul_div_cancel 1024 hhpos
      unfold OpenAIService.thumbRoundFst
      rcases Nat.lt_or_ge img.width img.height with hlt | hge
      · have hfa : 1024 * img.width / img.height < 1024 := by
          rw [Nat.div_lt_iff_lt_mul hhpos]
          nlinarith
        refine Nat.max_le.mpr ⟨?_, by norm_num⟩
        split
        · exact hf
        · omega
      · have heq : img.width = img.height := le_antisymm hwh hge
        have hr : 1024 * img.width % img.height = 0 := by
          rw [heq]
          exact Nat.mul_mod_left 1024 img.height
        refine Nat.max_le.mpr ⟨?_, by norm_num⟩
        rw [if_pos (by omega)]
        exact hf
    case isFalse hbr =>
      have hwh : img.height < img.width := by
        by_contra hcon
        push_neg at hcon
        exact hbr (by nlinarith)
      have hwpos : 0 < img.width := by omega
      refine ⟨le_refl 1024, ?_⟩
      have hfa : 1024 * img.height / img.width < 1024 := by
        rw [Nat.div_lt_iff_lt_mul hwpos]
        nlinarith
      unfold OpenAIService.thumbRoundSnd
      refine Nat.max_le.mpr ⟨?_, by norm_num⟩
      split
      · omega
      · omega

/-- C8: before submission to the inference capability, `preprocess_image`
leaves every (at least 1×1) image with both dimensions at most 1024
(downscaling via `thumbnail` whenever a dimension exceeds 1024) and with
colour mode RGB (converting any other mode). -/
theorem preprocess_image_bounds (img : OpenAIService.Img)
    (hw : 1 ≤ img.width) (hh : 1 ≤ img.height) :
    (OpenAIService.preprocess_image img).width ≤ 1024
  ∧ (OpenAIService.preprocess_image img).height ≤ 1024
  ∧ (OpenAIService.preprocess_image img).mode = "RGB" := by
  have hthumb := thumbnail_le img hw hh
  unfold OpenAIService.preprocess_image
  by_cases hc : 1024 < img.width ∨ 1024 < img.height
  · rw [if_pos hc]
    by_cases hm : (OpenAIService.thumbnail img 1024 1024).mode ≠ "RGB"
    · rw [if_pos hm]
      exact ⟨hthumb.1, hthumb.2, rfl⟩
    · rw [if_neg hm]
      push_neg at hm
      exact ⟨hthumb.1, hthumb.2, hm⟩
  · rw [if_neg hc]
    push_neg at hc
    by_cases hm : img.mode ≠ "RGB"
    · rw [if_pos hm]
      exact ⟨hc.1, hc.2, rfl⟩
    · rw [if_neg hm]
      push_neg at hm
      exact ⟨hc.1, hc.2, hm⟩

/-- Witness for C8 at a 2048×512 grayscale image, downscaled to 1024×256
and converted to RGB. -/
theorem preprocess_image_bounds_witness :
    1 ≤ (2048 : ℕ) ∧ 1 ≤ (512 : ℕ)
  ∧ (OpenAIService.preprocess_image ⟨2048, 512, "L"⟩).width ≤ 1024
  ∧ (OpenAIService.preprocess_image ⟨2048, 512, "L"⟩).height ≤ 1024
  ∧ (OpenAIService.preprocess_image ⟨2048, 512, "L"⟩).mode = "RGB" :=
  ⟨by decide, by decide,
   (preprocess_image_bounds ⟨2048, 512, "L"⟩ (by decide) (by decide)).1,
   (preprocess_image_bounds ⟨2048, 512, "L"⟩ (by decide) (by decide)).2.1,
   (preprocess_image_bounds ⟨2048, 512, "L"⟩ (by decide) (by decide)).2.2⟩

end Drowsy

namespace Drowsy

/-- A run of binary frames in a session sampling every `N ≥ 1` frames emits
exactly the per-frame chunks of `binTrace`, starting at the session's
current counter. -/
theorem run_binary_trace (N : ℕ) (hN : N ≠ 0) :
    ∀ (os : List InferOutcome) (st : Consumer.ConsumerState),
      st.serviceOk = true → st.analysis_interval = .num (N : ℚ) →
      (Consumer.run st (os.map .binary)).2 = binTrace N st.frame_count os := by
  intro os
  induction os with
  | nil =>
    intro st _ _
    simp [Consumer.run, binTrace]
  | cons o os ih =>
    intro st hs hI
    have h := receive_binary_num st N o hs hI hN
    simp only [List.map, Consumer.run]
    rw [h]
    by_cases hc : (st.frame_count + 1) % N = 0
    · rw [if_pos hc]
      dsimp only
      rw [ih ⟨st.serviceOk, st.closed, st.frame_count + 1, st.analysis_interval,
        some (OpenAIService.analyze_frame o)⟩ hs hI]
      simp [binTrace, binChunk, hc]
    · rw [if_neg hc]
      dsimp only
      rw [ih ⟨st.serviceOk, st.closed, st.frame_count + 1, st.analysis_interval,
        st.last_analysis_result⟩ hs hI]
      simp [binTrace, binChunk, hc]

/-- Counting `processing` messages distributes over concatenation. -/
theorem countProcessing_append (a b : List Consumer.ServerMsg) :
    Consumer.countProcessing (a ++ b) =
      Consumer.countProcessing a + Consumer.countProcessing b := by
  simp [Consumer.countProcessing, List.filter_append]

/-- A frame chunk holds one `processing` message exactly when sampled. -/
theorem countProcessing_binChunk (N i : ℕ) (o : InferOutcome) :
    Consumer.countProcessing (binChunk N i o) = if i % N = 0 then 1 else 0 := by
  unfold binChunk
  split <;> simp [Consumer.countProcessing, Consumer.isProcessingMsg]

/-- Counting `frame_received` messages distributes over concatenation. -/
theorem countFrameReceived_append (a b : List Consumer.ServerMsg) :
    Consumer.countFrameReceived (a ++ b) =
      Consumer.countFrameReceived a + Consumer.countFrameReceived b := by
  simp [Consumer.countFrameReceived, List.filter_append]

/-- A frame chunk holds one `frame_received` message exactly when skipped. -/
theorem countFrameReceived_binChunk (N i : ℕ) (o : InferOutcome) :
    Consumer.countFrameReceived (binChunk N i o) = if i % N = 0 then 0 else 1 := by
  unfold binChunk
  split <;> simp [Consumer.countFrameReceived, Consumer.isFrameReceivedMsg]

/-- Over frames `c+1 … c+m` the number of sampled (analyzed) frames is the
number of multiples of `N` in that window: `(c+m)/N - c/N`. -/
theorem countProcessing_binTrace (N : ℕ) (_hN : N ≠ 0) :
    ∀ (os : List InferOutcome) (c : ℕ),
      Consumer.countProcessing (binTrace N c os) = (c + os.length) / N - c / N := by
  intro os
  induction os with
  | nil =>
    intro c
    simp [binTrace, Consumer.countProcessing]
  | cons o os ih =>
    intro c
    rw [binTrace, countProcessing_append, countProcessing_binChunk, ih (c + 1)]
    simp only [List.length_cons]
    have harg : c + (os.length + 1) = c + 1 + os.length := by omega
    rw [harg]
    have hsd := Nat.succ_div c N
    have hmono : (c + 1) / N ≤ (c + 1 + os.length) / N := Nat.div_le_div_right (by omega)
    have hmono2 : c / N ≤ (c + 1) / N := Nat.div_le_div_right (by omega)
    have hdvd : ((c + 1) % N = 0) ↔ N ∣ (c + 1) := Nat.dvd_iff_mod_eq_zero.symm
    by_cases hc : (c + 1) % N = 0
    · rw [if_pos hc]
      rw [if_pos (hdvd.mp hc)] at hsd
      omega
    · rw [if_neg hc]
      rw [if_neg (fun hd => hc (hdvd.mpr hd))] at hsd
      omega

/-- Over frames `c+1 … c+m` the number of skipped frames is the complement
of the sampled ones. -/
theorem countFrameReceived_binTrace (N : ℕ) (hN : N ≠ 0) :
    ∀ (os : List InferOutcome) (c : ℕ),
      Consumer.countFrameReceived (binTrace N c os) =
        os.length - ((c + os.length) / N - c / N) := by
  intro os
  induction os with
  | nil =>
    intro c
    simp [binTrace, Consumer.countFrameReceived]
  | cons o os ih =>
    intro c
    rw [binTrace, countFrameReceived_append, countFrameReceived_binChunk, ih (c + 1)]
    simp only [List.length_cons]
    have harg : c + (os.length + 1) = c + 1 + os.length := by omega
    rw [harg]
    have hsd := Nat.succ_div c N
    have hmono : (c + 1) / N ≤ (c + 1 + os.length) / N := Nat.div_le_div_right (by omega)
    have hmono2 : c / N ≤ (c + 1) / N := Nat.div_le_div_right (by omega)
    have hup : (c + 1 + os.length) / N ≤ (c + 1) / N + os.length := by
      have hlenN : os.length ≤ os.length * N :=
        Nat.le_mul_of_pos_right os.length (Nat.pos_of_ne_zero hN)
      calc (c + 1 + os.length) / N ≤ (c + 1 + os.length * N) / N :=
            Nat.div_le_div_right (by omega)
        _ = (c + 1) / N + os.length := Nat.add_mul_div_right (c + 1) os.length
            (Nat.pos_of_ne_zero hN)
    have hdvd : ((c + 1) % N = 0) ↔ N ∣ (c + 1) := Nat.dvd_iff_mod_eq_zero.symm
    by_cases hc : (c + 1) % N = 0
    · rw [if_pos hc]
      rw [if_pos (hdvd.mp hc)] at hsd
      omega
    · rw [if_neg hc]
      rw [if_neg (fun hd => hc (hdvd.mpr hd))] at hsd
      omega

/-- Every skipped frame's acknowledgment occurs in the trace. -/
theorem frameReceived_mem_binTrace (N : ℕ) :
    ∀ (os : List InferOutcome) (c k : ℕ), k < os.length → (c + k + 1) % N ≠ 0 →
      Consumer.ServerMsg.frameReceived (c + k + 1) false ∈ binTrace N c os := by
  intro os
  induction os with
  | nil =>
    intro c k hk
    simp at hk
  | cons o os ih =>
    intro c k hk hnd
    cases k with
    | zero =>
      rw [binTrace]
      apply List.mem_append_left
      simp [binChunk, hnd]
    | succ k2 =>
      rw [binTrace]
      apply List.mem_append_right
      have harg : c + (k2 + 1) + 1 = c + 1 + k2 + 1 := by omega
      rw [harg] at hnd ⊢
      exact ih (c + 1) k2 (by simp only [List.length_cons] at hk; omega) hnd

/-- Every sampled frame's `processing` status occurs in the trace. -/
theorem processing_mem_binTrace (N : ℕ) :
    ∀ (os : List InferOutcome) (c k : ℕ), k < os.length → (c + k + 1) % N = 0 →
      Consumer.ServerMsg.processing (c + k + 1) "Analyzing frame..." ∈ binTrace N c os := by
  intro os
  induction os with
  | nil =>
    intro c k hk
    simp at hk
  | cons o os ih =>
    intro c k hk hd
    cases k with
    | zero =>
      rw [binTrace]
      apply List.mem_append_left
      simp [binChunk, hd]
    | succ k2 =>
      rw [binTrace]
      apply List.mem_append_right
      have harg : c + (k2 + 1) + 1 = c + 1 + k2 + 1 := by omega
      rw [harg] at hd ⊢
      exact ih (c + 1) k2 (by simp only [List.length_cons] at hk; omega) hd

/-- C1: in a freshly configured session with sampling interval `N ≥ 1`, a
run of `m` binary frames (no interleaved reconfiguration) submits exactly
`m / N` frames for inference — the frames whose post-increment counter is
divisible by `N`, each marked by its `processing` emission (fourth
conjunct) — while each of the other `m - m / N` frames receives a
`frame_received` acknowledgment with `analyzed = false` (second and third
conjuncts). -/
theorem frame_sampling_floor_div (N : ℕ) (hN : 1 ≤ N) (os : List InferOutcome) :
    Consumer.countProcessing (Consumer.run (Consumer.sampleState N) (os.map .binary)).2 =
        os.length / N
  ∧ Consumer.countFrameReceived (Consumer.run (Consumer.sampleState N) (os.map .binary)).2 =
        os.length - os.length / N
  ∧ (∀ k, k < os.length → (k + 1) % N ≠ 0 →
       Consumer.ServerMsg.frameReceived (k + 1) false ∈
         (Consumer.run (Consumer.sampleState N) (os.map .binary)).2)
  ∧ (∀ k, k < os.length → (k + 1) % N = 0 →
       Consumer.ServerMsg.processing (k + 1) "Analyzing frame..." ∈
         (Consumer.run (Consumer.sampleState N) (os.map .binary)).2) := by
  have hN0 : N ≠ 0 := by omega
  have hrun := run_binary_trace N hN0 os (Consumer.sampleState N) rfl rfl
  rw [show (Consumer.sampleState N).frame_count = 0 from rfl] at hrun
  rw [hrun]
  refine ⟨?_, ?_, ?_, ?_⟩
  · rw [countProcessing_binTrace N hN0 os 0]
    simp
  · rw [countFrameReceived_binTrace N hN0 os 0]
    simp
  · intro k hk hnd
    have h0 : k + 1 = 0 + k + 1 := by omega
    rw [h0]
    exact frameReceived_mem_binTrace N os 0 k hk (by rw [← h0]; exact hnd)
  · intro k hk hd
    have h0 : k + 1 = 0 + k + 1 := by omega
    rw [h0]
    exact processing_mem_binTrace N os 0 k hk (by rw [← h0]; exact hd)

/-- Witness for C1 at interval 2 over five frames: exactly `5 / 2 = 2`
frames are submitted. -/
theorem frame_sampling_floor_div_witness :
    1 ≤ 2
  ∧ Consumer.countProcessing (Consumer.run (Consumer.sampleState 2)
      ([InferOutcome.returns "a", .raises "x", .returns "b", .returns "c",
        .raises "y"].map .binary)).2 =
      [InferOutcome.returns "a", .raises "x", .returns "b", .returns "c",
        .raises "y"].length / 2 :=
  ⟨by decide, (frame_sampling_floor_div 2 (by decide) _).1⟩

end Drowsy
